import Mathlib

/-!
Verification of the jigsaw-generator repository (src/jigsaw/generate.py)
against its natural-language specification.

This file gives a shallow embedding, in Lean, of the pure core of
`generate.py`: the entry formatter (`make_entry` and helpers), the
template substitution function (`dosub`), the piece placement / rotation
arithmetic of `make_triangles` and `make_squares`, the domino face
computation of `make_domino_cards`, and the cardinality validation of
`generate_jigsaw` / `generate_cardsort`.  Python lists become Lean
lists, Python ints become `Int`/`Nat` (Python `%` on a positive modulus
agrees with `Int.emod`), dicts with optional keys become structures of
`Option` fields, `sys.exit` becomes `Except.error`, and writes to
`sys.stderr` are collected as explicit log values.
-/

namespace JigsawGen

/-- Python `\s` for the ASCII range: the whitespace class used by the
`re` module patterns in generate.py. -/
def pyIsSpace (c : Char) : Bool :=
  c = ' ' || c = '\t' || c = '\n' || c = '\r' || c = '\x0b' || c = '\x0c'

/-- Python `str.rstrip()`: remove trailing whitespace. -/
def rstrip (s : String) : String :=
  String.mk ((s.toList.reverse.dropWhile pyIsSpace).reverse)

/-- LaTeX font sizes; generate.py lines 44-54. -/
def sizes : List String :=
  ["\\tiny", "\\scriptsize", "\\footnotesize", "\\small", "\\normalsize",
   "\\large", "\\Large", "\\LARGE", "\\huge", "\\Huge"]

/-- generate.py line 55. -/
def normalsize : Nat := 4

/-- `cardnum` (generate.py lines 411-416): underline 6 and 9; return
everything else as a string. -/
def cardnum (n : Nat) : String :=
  if n = 6 || n = 9 then "\\underline\x7b" ++ toString n ++ "\x7d" else toString n

/-!
## img2tex (generate.py lines 394-409)

The regex `!\[([^\]]*)\]\(([^\)]*)\)` is deterministic: the two greedy
character classes exclude their closing delimiter, so the caption runs to
the first `]` and the image path to the first `)`.  `img_re.sub(..., count=1)`
replaces the leftmost match; the `while` loop repeats until no match is
left.  The loop is embedded with explicit fuel (the Python loop can only
run as long as matches remain; on inputs where it would not terminate the
fuel model returns the partially rewritten text).  Escape processing of
the replacement template by `re.sub` is not modelled: the template is
taken literally, as intended by the raw strings in the source.
-/

/-- Try to match `!\[([^\]]*)\]\(([^\)]*)\)` at the head of the character
list, returning (caption, image, rest-after-match). -/
def imgMatchAt (cs : List Char) : Option (String × String × List Char) :=
  match cs with
  | '!' :: '[' :: rest =>
    let caption := rest.takeWhile (fun c => c ≠ ']')
    match rest.dropWhile (fun c => c ≠ ']') with
    | ']' :: '(' :: rest2 =>
      let img := rest2.takeWhile (fun c => c ≠ ')')
      match rest2.dropWhile (fun c => c ≠ ')') with
      | ')' :: rest3 => some (String.mk caption, String.mk img, rest3)
      | _ => none
    | _ => none
  | _ => none

/-- Leftmost match of the image regex: returns (prefix, caption, image,
suffix). -/
def findImg : List Char → Option (List Char × String × String × List Char)
  | [] => none
  | c :: rest =>
    match imgMatchAt (c :: rest) with
    | some (cap, img, suf) => some ([], cap, img, suf)
    | none =>
      match findImg rest with
      | some (pre, cap, img, suf) => some (c :: pre, cap, img, suf)
      | none => none

/-- One `img_re.sub(..., count=1)` step per fuel unit. -/
def img2texLoop : Nat → List Char → List Char
  | 0, cs => cs
  | Nat.succ fuel, cs =>
    match findImg cs with
    | none => cs
    | some (pre, cap, img, suf) =>
      let repl :=
        if cap ≠ "" then
          "\\imagecap\x7b" ++ img ++ "\x7d\x7b" ++ cap ++ "\x7d"
        else
          "\\image\x7b" ++ img ++ "\x7d"
      img2texLoop fuel (pre ++ repl.toList ++ suf)

/-- `img2tex` (generate.py lines 396-409). -/
def img2tex (text : String) : String :=
  String.mk (img2texLoop text.length text.toList)

/-!
## dosub (generate.py lines 100-108)

`dosub` substitutes `<: var :>` placeholders using the regex
`<:\s*(\S*?)\s*:>`.  Because `\s` and `\S` are disjoint, the match at a
given position is deterministic: after `<:`, skip whitespace, then take
the shortest run of non-whitespace characters that is followed by
optional whitespace and `:>` (the lazy group `\S*?`).

When the variable is not a key of `subs`, the replacement callback
`subtext` prints a diagnostic and falls off its end, returning `None`;
`re.sub` then raises `TypeError` because the replacement is not a
string.  That exceptional outcome is modelled as `Except.error` carrying
the diagnostic text.
-/

/-- Lazy-group matcher for `(\S*?)\s*:>`: `acc` holds the group read so
far (reversed).  At each position first try to close (shortest match
wins), else extend the group by one non-whitespace character. -/
def lazyGroup : List Char → List Char → Option (String × List Char)
  | cs, acc =>
    match cs.dropWhile pyIsSpace with
    | ':' :: '>' :: rest => some (String.mk acc.reverse, rest)
    | _ =>
      match cs with
      | [] => none
      | c :: rest =>
        if pyIsSpace c then none else lazyGroup rest (c :: acc)

/-- Try to match `<:\s*(\S*?)\s*:>` at the head of the character list,
returning (group 1, rest-after-match). -/
def placeholderAt (cs : List Char) : Option (String × List Char) :=
  match cs with
  | '<' :: ':' :: rest => lazyGroup (rest.dropWhile pyIsSpace) []
  | _ => none

/-- The scan of `re.sub`: walk the text left to right, replacing each
placeholder.  A resolved variable is replaced by its value; an
unresolved one is the `TypeError` path (see above).  Fuel is the length
of the text; every step consumes at least one character. -/
def dosubAux (subs : List (String × String)) : Nat → List Char → Except String (List Char)
  | 0, cs => .ok cs
  | Nat.succ fuel, cs =>
    match cs with
    | [] => .ok []
    | c :: rest =>
      match placeholderAt (c :: rest) with
      | some (var, after) =>
        match subs.lookup var with
        | some v =>
          match dosubAux subs fuel after with
          | .ok r => .ok (v.toList ++ r)
          | .error e => .error e
        | none =>
          .error ("Unrecognised substitution: " ++
                  String.mk ((c :: rest).take ((c :: rest).length - after.length)))
      | none =>
        match dosubAux subs fuel rest with
        | .ok r => .ok (c :: r)
        | .error e => .error e

/-- `dosub` (generate.py lines 100-108): substitute `<: var :>` strings
in `text` using `subs`.  `str()` of the mapped value is the identity
here since the embedded map carries strings. -/
def dosub (text : String) (subs : List (String × String)) : Except String String :=
  match dosubAux subs text.length text.toList with
  | .ok cs => .ok (String.mk cs)
  | .error e => .error e

/-!
## Entry model and make_entry (generate.py lines 188-392)

A YAML entry is either a plain string or a dict with the optional keys
recognised by `make_entry`.  Size values are modelled as already-parsed
integers (`int(...)` of an int value never raises, so the `except`
branch of `make_entry_size`, which handles unparsable YAML size values,
is unreachable for entries representable here).  `hidden` holds the
truthiness of the value.  The module-level `exists_hidden` flag (line
58) is threaded explicitly: `make_entry` takes the current flag value
and returns the updated one.  Messages printed to stderr are returned
as an explicit list of log strings (the per-field dump of lines 264-265
is elided; only the leading message is recorded).
-/

structure EntryDict where
  text : Option String
  puzzletext : Option String
  solutiontext : Option String
  size : Option Int
  puzzlesize : Option Int
  solutionsize : Option Int
  hidden : Option Bool
  label : Option String
  labelsize : Option Nat
deriving DecidableEq, Repr

inductive Entry where
  | plain (s : String)
  | dict (d : EntryDict)
deriving DecidableEq, Repr

inductive Style where
  | table
  | tikz
  | md
deriving DecidableEq, Repr

/-- `make_entry_size` (generate.py lines 318-344): resolve a size key.
With the key present, size = defaultsize + delta clamped into
[0, len(sizes)-1]; with the key absent, entrysize if set, else
defaultsize. -/
def make_entry_size (sizeval : Option Int) (defaultsize : Nat) (entrysize : Option Nat) : Nat :=
  match sizeval with
  | some delta =>
    let s : Int := (defaultsize : Int) + delta
    if s < 0 then 0
    else if (sizes.length : Int) ≤ s then sizes.length - 1
    else s.toNat
  | none =>
    match entrysize with
    | some es => es
    | none => defaultsize

/-- `make_entry_util` (generate.py lines 346-367): produce the output
text once text, size, hide and style are determined. -/
def make_entry_util (text0 size : String) (mark_hidden : Bool) (style : Style) (blank : String) : String :=
  let text := rstrip text0
  if mark_hidden then
    match style with
    | .table => "(*) " ++ img2tex text
    | .tikz => "\x7bhidden\x7d\x7b" ++ size ++ " " ++ img2tex text ++ "\x7d"
    | .md => "(*) " ++ text
  else
    match style with
    | .table => img2tex text
    | .tikz => "\x7bregular\x7d\x7b" ++ size ++ " " ++ img2tex text ++ "\x7d"
    | .md => if text ≠ "" then text else blank

/-- `make_entry_label` (generate.py lines 369-392).  `sizes[labelsize]`
is modelled with a default for out-of-range label sizes (valid
configurations keep the index in range). -/
def make_entry_label (entry : Entry) (style : Style) (defaultlabel : String) (defaultlabelsize : Nat) : String :=
  let labeltext :=
    match entry with
    | .dict e => rstrip (e.label.getD defaultlabel)
    | .plain _ => rstrip defaultlabel
  let labelsize :=
    match entry with
    | .dict e => e.labelsize.getD defaultlabelsize
    | .plain _ => defaultlabelsize
  match style with
  | .table => img2tex labeltext
  | .tikz =>
    if labeltext ≠ "" then sizes.getD labelsize "" ++ " " ++ img2tex labeltext
    else ""
  | .md => labeltext

/-- Diagnostic printed at generate.py lines 257-259 (the two adjacent
string literals in the source concatenate without a space). -/
def onlyOneTextMsg : String :=
  "Cannot have only one of \"puzzletext\" and \"solutiontext\"in an entry.\nRelevant entry is:\n"

/-- Diagnostic printed at generate.py lines 261-263. -/
def noTextMsg : String :=
  "No \"text\" field in entry in data file. Relevant entry is:\n"

/-- `make_entry` (generate.py lines 188-316): convert a YAML entry into
a LaTeX or Markdown formatted entry.  Returns ((text, label),
exists_hidden-after, logged diagnostics).  The in-place mutation
`entry['hidden'] = True` performed when a `solutiontext` key is present
(lines 276-278) is modelled locally via `hide`. -/
def make_entry (entry : Entry) (defaultsize : Nat) (style : Style)
    (defaultlabel : String) (defaultlabelsize : Nat) (blank : String)
    (solution : Bool) (existsHidden : Bool) :
    (String × String) × Bool × List String :=
  let label := make_entry_label entry style defaultlabel defaultlabelsize
  match entry with
  | .dict e =>
    if e.text.isNone ∧ (e.puzzletext.isNone ∨ e.solutiontext.isNone) then
      let msg :=
        if e.puzzletext.isSome ∨ e.solutiontext.isSome then onlyOneTextMsg
        else noTextMsg
      ((make_entry_util "" "" false style blank, label), existsHidden, [msg])
    else
      let size := make_entry_size e.size defaultsize none
      let hide :=
        match e.hidden with
        | some b => b
        | none => e.solutiontext.isSome
      let existsHidden' := existsHidden || hide
      if solution then
        match e.solutiontext with
        | some st =>
          let solnsize := make_entry_size e.solutionsize defaultsize (some size)
          ((make_entry_util st (sizes.getD solnsize "") hide style blank, label),
           existsHidden', [])
        | none =>
          ((make_entry_util (e.text.getD "") (sizes.getD size "") hide style blank, label),
           existsHidden', [])
      else
        match e.puzzletext with
        | some pt =>
          let puzsize := make_entry_size e.puzzlesize defaultsize (some size)
          ((make_entry_util pt (sizes.getD puzsize "") false style blank, label),
           existsHidden', [])
        | none =>
          if hide then
            ((make_entry_util "" "" false style blank, ""), existsHidden', [])
          else
            ((make_entry_util (e.text.getD "") (sizes.getD size "") false style blank, label),
             existsHidden', [])
  | .plain s =>
    ((make_entry_util s (sizes.getD defaultsize "") false style blank, label),
     existsHidden, [])

/-!
## Piece placement and rotation (make_triangles, lines 460-562;
make_squares, lines 564-671)

Python `%` on a positive modulus agrees with `Int.emod`, so the index
and angle arithmetic is embedded over `Int` and converted with `toNat`
where an index results.
-/

/-- The puzzle entries of one triangular piece (generate.py lines
511-513): `[solcard[(3-rot)%3], solcard[(4-rot)%3], solcard[(5-rot)%3]]`. -/
def trianglePuzEntries {α : Type} (solcard : List α) (rot : Nat) (d : α) : List α :=
  [solcard.getD (((3 - (rot : Int)) % 3).toNat) d,
   solcard.getD (((4 - (rot : Int)) % 3).toNat) d,
   solcard.getD (((5 - (rot : Int)) % 3).toNat) d]

/-- The puzzle entries of one square piece (generate.py lines 618-621). -/
def squarePuzEntries {α : Type} (solcard : List α) (rot : Nat) (d : α) : List α :=
  [solcard.getD (((4 - (rot : Int)) % 4).toNat) d,
   solcard.getD (((5 - (rot : Int)) % 4).toNat) d,
   solcard.getD (((6 - (rot : Int)) % 4).toNat) d,
   solcard.getD (((7 - (rot : Int)) % 4).toNat) d]

/-- The normalisation `(angle + 180) % 360 - 180` applied before the
angle is stored (generate.py lines 523 and 633). -/
def normAngle (angle : Int) : Int :=
  (angle + 180) % 360 - 180

/-- The number-label angle stored on a triangular solution card
(generate.py lines 520-523): `puzorient` is
`trianglePuzzleOrientation[j]` = (base direction, number direction),
`solorient` is `triangleSolutionOrientation[i]`, `rot` the random
rotation. -/
def triangleSolAngle (puzorient : Int × Int) (solorient : Int) (rot : Nat) : Int :=
  normAngle (puzorient.2 + (solorient - puzorient.1) - 120 * (rot : Int))

/-- The number-label angle stored on a square solution card
(generate.py lines 629-633). -/
def squareSolAngle (puzorient : Int × Int) (solorient : Int) (rot : Nat) : Int :=
  normAngle (puzorient.2 + (solorient - puzorient.1) - 90 * (rot : Int))

/-- The placement loop of make_triangles / make_squares (generate.py
lines 504-514 resp. 611-623): starting from
`trianglepuzcard = [[]] * n` (the empty placeholder is modelled as
`none`), iterate `i` over the solution cards and write piece `i` into
slot `order[i]`.  The stored content is abstracted to the solution
index `i` (the source stores the formatted card built from solution
card `i`). -/
def placeLoop (order : List Nat) (i : Nat) (acc : List (Option Nat)) : List (Option Nat) :=
  match order with
  | [] => acc
  | j :: rest => placeLoop rest (i + 1) (acc.set j (some i))

/-- Full placement: `n` slots, `order` the shuffled slot assignment
(`triangleorder` / `squareorder`, lines 501-502 resp. 608-609). -/
def placeCards (n : Nat) (order : List Nat) : List (Option Nat) :=
  placeLoop order 0 (List.replicate n none)

/-!
## Domino faces (make_domino_cards, generate.py lines 835-1011)

For data files whose pairs are all real (no special marker entries,
which `check_special` only recognises for dict entries), `realpairs`
(lines 891-896) is the identity indexing, so `pairs[realpairs[x]]` is
`pairs[x]`.  The face computation for puzzle position `i` (lines
963-974) is embedded directly.
-/

/-- The two faces of the domino printed at puzzle position `i`
(generate.py lines 963-974), returned as (textL, textR) content before
formatting: `puzi = cardorder[i]`,
`puzi1 = (cardorder[i] - 1 + num_pairs) % num_pairs`,
`textL = pairs[puzi1][1]`, `textR = pairs[puzi][0]`. -/
def dominoPuzFaces {α : Type} (pairs : List (α × α)) (cardorder : List Nat)
    (dflt : α × α) (i : Nat) : α × α :=
  let numPairs := pairs.length
  let puzi := cardorder.getD i 0
  let puzi1 := (((puzi : Int) - 1 + numPairs) % numPairs).toNat
  ((pairs.getD puzi1 dflt).2, (pairs.getD puzi dflt).1)

/-!
## Cardinality validation (generate_jigsaw lines 1471-1510 and
generate_cardsort lines 1853-1896)

`sys.exit(msg)` is modelled as `Except.error msg`; warnings printed to
stderr are returned alongside the adjusted value.
-/

/-- The pairs check shared verbatim by generate_jigsaw (lines
1471-1489) and generate_cardsort (lines 1853-1871).  `layoutPairs` is
`layout['pairs']` when present, `dataPairs` is `data['pairs']` when
present. -/
def checkPairs {α : Type} (layoutPairs : Option Nat) (dataPairs : Option (List α))
    (typename : String) : Except String (List α) :=
  match layoutPairs with
  | some lp =>
    match dataPairs with
    | some pairs =>
      if lp = 0 then
        if pairs.length = 0 then
          .error ("Puzzle type " ++ typename ++ " needs at least one pair")
        else .ok pairs
      else
        if pairs.length ≠ lp then
          .error ("Puzzle type " ++ typename ++ " needs exactly " ++
                  toString lp ++ " pairs")
        else .ok pairs
    | none => .error ("Puzzle type " ++ typename ++ " requires pairs in data file")
  | none =>
    match dataPairs with
    | some _ => .error ("Puzzle type " ++ typename ++ " does not accept pairs in data file")
    | none => .ok []

/-- The cards check of generate_cardsort (generate.py lines 1878-1896). -/
def checkCards {α : Type} (layoutCards : Option Nat) (dataCards : Option (List α))
    (typename : String) : Except String (List α) :=
  match layoutCards with
  | some lc =>
    match dataCards with
    | some cards =>
      if lc = 0 then
        if cards.length = 0 then
          .error ("Puzzle type " ++ typename ++ " needs at least one card")
        else .ok cards
      else
        if cards.length ≠ lc then
          .error ("Puzzle type " ++ typename ++ " needs exactly " ++
                  toString lc ++ " cards")
        else .ok cards
    | none => .error ("Puzzle type " ++ typename ++ " requires cards in data file")
  | none =>
    match dataCards with
    | some _ => .error ("Puzzle type " ++ typename ++ " does not accept cards in data file")
    | none => .ok []

/-- Warning printed at generate.py lines 1495-1497. -/
def moreEdgesMsg (le : Nat) : String :=
  "Warning: more than " ++ toString le ++ " edges given; extra will be ignored"

/-- Warning printed at generate.py lines 1500-1502. -/
def fewerEdgesMsg (le : Nat) : String :=
  "Warning: fewer than " ++ toString le ++ " edges given; remainder will be blank"

/-- The edges handling of generate_jigsaw (generate.py lines
1491-1510): returns the adjusted edge list together with the warnings
printed. -/
def checkEdges (layoutEdges : Option Nat) (dataEdges : Option (List String))
    (typename : String) : Except String (List String × List String) :=
  match layoutEdges with
  | some le =>
    match dataEdges with
    | some edges =>
      if le < edges.length then
        .ok (edges.take le, [moreEdgesMsg le])
      else if edges.length < le then
        .ok (edges ++ List.replicate (le - edges.length) "", [fewerEdgesMsg le])
      else .ok (edges, [])
    | none => .ok (List.replicate le "", [])
  | none =>
    match dataEdges with
    | some _ => .error ("Puzzle type " ++ typename ++ " does not accept edges in data file")
    | none => .ok ([], [])

/-!
## Generation core (generate_jigsaw, lines 1368-1620; generate_cardsort,
lines 1680-1960)

The Python `random` module is an external collaborator; it is modelled
as an arbitrary deterministic PRNG implementation over an explicit
state type: `seed` corresponds to `random.seed(dsubs['title'])` (lines
1462-1466 resp. 1842-1846), `shuffle s n` returns the permutation of
`{0..n-1}` that `random.shuffle` would apply together with the new
state, `randint s a b` draws from `[a, b]`, and `choice s` draws the
boolean of `random.choice([True, False])`.  The pipeline threads this
state in the source's draw order: shuffle pairs → shuffle edges → flip
pairs → shuffle piece order → per-piece rotations.
-/

structure RngOps (σ : Type) where
  seed : String → σ
  shuffle : σ → Nat → List Nat × σ
  randint : σ → Nat → Nat → Nat × σ
  choice : σ → Bool × σ

/-- Apply a permutation of `{0..l.length-1}` to a list, as
`random.shuffle` does in place. -/
def applyPerm {α : Type} (order : List Nat) (l : List α) : List α :=
  order.filterMap (fun j => l[j]?)

/-- Data file fields used by the jigsaw path (generate.py lines
1462-1532). -/
structure JigsawData where
  title : Option String
  pairs : Option (List (String × String))
  edges : Option (List String)
  shufflePairs : Bool
  shuffleEdges : Bool
  flip : Bool
deriving DecidableEq, Repr

/-- Layout fields used by the jigsaw path. -/
structure JigsawLayout where
  typename : String
  pairsReq : Option Nat
  edgesReq : Option Nat
  triangleSolutionCards : List (List String)
  triangleSolutionOrientation : List Int
  trianglePuzzleOrientation : List (Int × Int)
  puzzleTextSize : Nat
  solutionTextSize : Nat
deriving DecidableEq, Repr

/-- The flip loop (generate.py lines 1524-1532): one boolean draw per
pair, in list order; a true draw swaps question and answer. -/
def flipPairs {σ : Type} (g : RngOps σ) :
    σ → List (String × String) → List (String × String) × σ
  | s, [] => ([], s)
  | s, p :: rest =>
    let (b, s1) := g.choice s
    let (rest', s2) := flipPairs g s1 rest
    ((if b then (p.2, p.1) else p) :: rest', s2)

/-- Resolve one `triangleSolutionCards` reference such as "Q1", "A2" or
"E3" (generate.py lines 479-493): prefix letter selects the collection,
`int(entry[1:]) - 1` the 0-based index.  The numeric parse is modelled
with `toNat?`; layouts use 1-based indices, so the `- 1` stays in
range (the source's error path for an unrecognised prefix, line 490,
calls an undefined `printf` and is not modelled). -/
def assembleCard (pairs : List (String × String)) (edges : List String)
    (card : List String) : List String :=
  card.map (fun entry =>
    match entry.toList with
    | 'Q' :: rest => (pairs.getD ((String.mk rest).toNat?.getD 0 - 1) ("", "")).1
    | 'A' :: rest => (pairs.getD ((String.mk rest).toNat?.getD 0 - 1) ("", "")).2
    | 'E' :: rest => edges.getD ((String.mk rest).toNat?.getD 0 - 1) ""
    | _ => "")

/-- One `{...}` cell of a tikz card substitution (generate.py lines
525-538). -/
def tikzCell (s : String) (size : Nat) (solution : Bool) : String :=
  "\x7b" ++ (make_entry (.plain s) size .tikz "" 0 "(BLANK)" solution false).1.1 ++ "\x7d"

/-- The `trisolcard` substitution value for one solution card
(generate.py lines 525-531), with `numberCards` at its default. -/
def triSolCardStr (solcard : List String) (num : String) (angle : Int)
    (solutionSize : Nat) : String :=
  tikzCell (solcard.getD 0 "") solutionSize true ++
  tikzCell (solcard.getD 1 "") solutionSize true ++
  tikzCell (solcard.getD 2 "") solutionSize true ++
  "\x7b" ++ sizes.getD (solutionSize - 3) "" ++ " " ++ num ++ "\x7d" ++
  "\x7b" ++ toString angle ++ "\x7d"

/-- The `tripuzcard` substitution value for one puzzle card (generate.py
lines 532-538). -/
def triPuzCardStr (puzEntries : List String) (num : String) (numDir : Int)
    (puzzleSize : Nat) : String :=
  tikzCell (puzEntries.getD 0 "") puzzleSize false ++
  tikzCell (puzEntries.getD 1 "") puzzleSize false ++
  tikzCell (puzEntries.getD 2 "") puzzleSize false ++
  "\x7b" ++ sizes.getD (puzzleSize - 3) "" ++ " " ++ num ++ "\x7d" ++
  "\x7b" ++ toString numDir ++ "\x7d"

/-- The card loop of make_triangles (generate.py lines 508-538): one
rotation draw per solution card, in order; builds the solution and
puzzle substitution strings. -/
def triangleLoop {σ : Type} (g : RngOps σ) (puzzleSize solutionSize : Nat)
    (solorients : List Int) (puzorients : List (Int × Int)) (order : List Nat) :
    σ → Nat → List (List String) → (List String × List String) × σ
  | s, _, [] => (([], []), s)
  | s, i, solcard :: rest =>
    let j := order.getD i 0
    let (rot, s1) := g.randint s 0 2
    let angle := triangleSolAngle (puzorients.getD j (0, 0)) (solorients.getD i 0) rot
    let solStr := triSolCardStr solcard (cardnum (j + 1)) angle solutionSize
    let puzStr := triPuzCardStr (trianglePuzEntries solcard rot "")
      (cardnum (j + 1)) (puzorients.getD j (0, 0)).2 puzzleSize
    let ((sols, puzs), s2) :=
      triangleLoop g puzzleSize solutionSize solorients puzorients order s1 (i + 1) rest
    ((solStr :: sols, puzStr :: puzs), s2)

/-- The answer-table rows built by make_table (generate.py lines
418-441) for pairs and edges. -/
def tableRows (pairs : List (String × String)) (edges : List String) : String :=
  (pairs.map (fun p =>
    (make_entry (.plain p.1) normalsize .table "" 0 "(BLANK)" true false).1.1 ++ "&" ++
    (make_entry (.plain p.2) normalsize .table "" 0 "(BLANK)" true false).1.1 ++
    "\\\\ \\hline\n")).foldl (fun a b => a ++ b) "" ++
  (edges.map (fun e =>
    "\\strut " ++
    (make_entry (.plain e) normalsize .table "" 0 "(BLANK)" true false).1.1 ++
    "\\\\ \\hline\n")).foldl (fun a b => a ++ b) ""

/-- The pure core of `generate_jigsaw` for a triangular layout: seed
from the title (lines 1462-1466), validate pairs and edges (lines
1471-1510), shuffle and flip (lines 1517-1532), build the table (line
1540) and the triangle cards (line 1543).  Returns (puzzle text,
solution text, table text). -/
def generate_jigsaw_core {σ : Type} (g : RngOps σ) (data : JigsawData)
    (layout : JigsawLayout) : Except String (String × String × String) :=
  let s0 := g.seed (data.title.getD "")
  match checkPairs layout.pairsReq data.pairs layout.typename with
  | .error e => .error e
  | .ok pairs0 =>
    match checkEdges layout.edgesReq data.edges layout.typename with
    | .error e => .error e
    | .ok (edges0, _warnings) =>
      let (pairs1, s1) :=
        if data.shufflePairs then
          let (ord, s') := g.shuffle s0 pairs0.length
          (applyPerm ord pairs0, s')
        else (pairs0, s0)
      let (edges1, s2) :=
        if data.shuffleEdges then
          let (ord, s') := g.shuffle s1 edges0.length
          (applyPerm ord edges0, s')
        else (edges0, s1)
      let (pairs2, s3) := if data.flip then flipPairs g s2 pairs1 else (pairs1, s2)
      let solcards := layout.triangleSolutionCards.map (assembleCard pairs2 edges1)
      let (order, s4) := g.shuffle s3 solcards.length
      let ((sols, puzs), _s5) :=
        triangleLoop g layout.puzzleTextSize layout.solutionTextSize
          layout.triangleSolutionOrientation layout.trianglePuzzleOrientation
          order s4 0 solcards
      .ok (puzs.foldl (fun a b => a ++ b) "",
           sols.foldl (fun a b => a ++ b) "",
           tableRows pairs1 edges1)

/-- Data file fields used by the domino path of generate_cardsort. -/
structure CardsortData where
  title : Option String
  pairs : Option (List (String × String))
  cards : Option (List String)
  shufflePairs : Bool
  flip : Bool
deriving DecidableEq, Repr

/-- Layout fields used by the domino path. -/
structure CardsortLayout where
  typename : String
  pairsReq : Option Nat
  cardsReq : Option Nat
  textSize : Nat
deriving DecidableEq, Repr

/-- The domino item loop (generate.py lines 922-994) restricted to the
face content: for each printed position `i`, the pair
(textL, textR) of puzzle faces. -/
def dominoFacesList (pairs : List (String × String)) (cardorder : List Nat) :
    List (String × String) :=
  (List.range pairs.length).map (dominoPuzFaces pairs cardorder ("", ""))

/-- The pure core of `generate_cardsort` for a domino layout: seed from
the title (lines 1842-1846), validate pairs and cards (lines
1853-1896), shuffle and flip (lines 1902-1914), then shuffle the
printing order and compute the puzzle faces (lines 899-994).  Returns
the concatenated puzzle face text. -/
def generate_cardsort_core {σ : Type} (g : RngOps σ) (data : CardsortData)
    (layout : CardsortLayout) : Except String String :=
  let s0 := g.seed (data.title.getD "")
  match checkPairs layout.pairsReq data.pairs layout.typename with
  | .error e => .error e
  | .ok pairs0 =>
    match checkCards layout.cardsReq data.cards layout.typename with
    | .error e => .error e
    | .ok _cards =>
      let (pairs1, s1) :=
        if data.shufflePairs then
          let (ord, s') := g.shuffle s0 pairs0.length
          (applyPerm ord pairs0, s')
        else (pairs0, s0)
      let (pairs2, s2) := if data.flip then flipPairs g s1 pairs1 else (pairs1, s1)
      let (cardorder, _s3) := g.shuffle s2 pairs2.length
      .ok ((dominoFacesList pairs2 cardorder).foldl
        (fun a f => a ++
          (make_entry (.plain f.1) layout.textSize .tikz "" 0 "(BLANK)" false false).1.1 ++
          (make_entry (.plain f.2) layout.textSize .tikz "" 0 "(BLANK)" false false).1.1) "")

/-- A concrete deterministic PRNG instance over `Nat` states, used to
exercise the generation core on concrete inputs. -/
def demoRng : RngOps Nat :=
  ⟨fun t => t.length,
   fun s n => (List.range n, s + 1),
   fun s a _ => (a, s + 1),
   fun s => (true, s + 1)⟩

/-- A concrete jigsaw data file. -/
def demoJigsawData : JigsawData :=
  ⟨some "Example", some [("q1", "a1")], some ["e1"], true, false, true⟩

/-- A concrete one-triangle jigsaw layout. -/
def demoJigsawLayout : JigsawLayout :=
  ⟨"triangles2", some 1, some 1, [["Q1", "A1", "E1"]], [0], [(0, -30)], 5, 5⟩

/-- A concrete domino data file. -/
def demoCardsortData : CardsortData :=
  ⟨some "Example", some [("q1", "a1"), ("q2", "a2")], none, true, false⟩

/-- A concrete domino layout. -/
def demoCardsortLayout : CardsortLayout :=
  ⟨"dominoes", some 0, none, 5⟩

/-!
## Theorems
-/

/-- The stored angle always lies in the half-open interval [-180, 180):
`Int.emod` by 360 lands in [0, 360). -/
theorem normAngle_bounds (a : Int) : -180 ≤ normAngle a ∧ normAngle a < 180 := by
  unfold normAngle
  have h1 : 0 ≤ (a + 180) % 360 := Int.emod_nonneg _ (by norm_num)
  have h2 : (a + 180) % 360 < 360 := Int.emod_lt_of_pos _ (by norm_num)
  omega

/-- C1 counterexample: with solutionBaseOrientation 180,
puzzleSlotBaseOrientation 0, puzzleSlotNumberDirection 0 and rotation 0,
the stored number-label angle is -180, which does not lie in the
half-open interval (-180, 180] asserted by the claim. -/
theorem triangle_angle_interval_cex :
    triangleSolAngle (0, 0) 180 0 = -180 ∧
    ¬(-180 < triangleSolAngle (0, 0) 180 0 ∧ triangleSolAngle (0, 0) 180 0 ≤ 180) := by
  decide

/-- C1 (amended): for both triangles (N=3) and squares (N=4) the stored
number-label angle equals
`puzzleSlotNumberDirection[j] + (solutionBaseOrientation[i] -
puzzleSlotBaseOrientation[j]) - (360/N)*r` normalised by
`((angle + 180) mod 360) - 180`, and the normalised value lies in the
half-open interval [-180, 180); in the concrete case N=3,
solutionBaseOrientation=180, puzzleSlotBaseOrientation=0,
puzzleSlotNumberDirection=-30, r=1 the stored angle is 30. -/
theorem solution_angle_formula :
    (∀ (pb pd so : Int) (rot : Nat),
      triangleSolAngle (pb, pd) so rot = normAngle (pd + (so - pb) - (360 / 3) * rot) ∧
      -180 ≤ triangleSolAngle (pb, pd) so rot ∧ triangleSolAngle (pb, pd) so rot < 180) ∧
    (∀ (pb pd so : Int) (rot : Nat),
      squareSolAngle (pb, pd) so rot = normAngle (pd + (so - pb) - (360 / 4) * rot) ∧
      -180 ≤ squareSolAngle (pb, pd) so rot ∧ squareSolAngle (pb, pd) so rot < 180) ∧
    triangleSolAngle (0, -30) 180 1 = 30 := by
  refine ⟨fun pb pd so rot => ⟨by norm_num [triangleSolAngle], ?_, ?_⟩,
          fun pb pd so rot => ⟨by norm_num [squareSolAngle], ?_, ?_⟩, by decide⟩
  · exact (normAngle_bounds _).1
  · exact (normAngle_bounds _).2
  · exact (normAngle_bounds _).1
  · exact (normAngle_bounds _).2

/-- C2: for both triangles (N=3) and squares (N=4), the puzzle piece's
entry at side k equals the solved piece's entry at index
(N - r + k) mod N, for every rotation r < N and side k < N. -/
theorem puzzle_entries_cyclic_shift :
    (∀ (α : Type) (sol : List α) (d : α) (rot k : Nat), rot < 3 → k < 3 →
      (trianglePuzEntries sol rot d).getD k d = sol.getD ((3 - rot + k) % 3) d) ∧
    (∀ (α : Type) (sol : List α) (d : α) (rot k : Nat), rot < 4 → k < 4 →
      (squarePuzEntries sol rot d).getD k d = sol.getD ((4 - rot + k) % 4) d) := by
  constructor
  · intro α sol d rot k hrot hk
    interval_cases rot <;> interval_cases k <;> simp [trianglePuzEntries]
  · intro α sol d rot k hrot hk
    interval_cases rot <;> interval_cases k <;> simp [squarePuzEntries]

/-- C2 witness: a concrete rotation of a concrete triangular piece. -/
theorem puzzle_entries_cyclic_shift_witness :
    (trianglePuzEntries ["a", "b", "c"] 1 "").getD 0 "" =
      ["a", "b", "c"].getD ((3 - 1 + 0) % 3) "" :=
  puzzle_entries_cyclic_shift.1 String ["a", "b", "c"] "" 1 0 (by decide) (by decide)

/-- C6: `dosub` on an unresolved placeholder produces the diagnostic and
then fails (the replacement callback returns `None` and `re.sub` raises
`TypeError`), while a fully resolved template substitutes normally. -/
theorem dosub_unresolved_error :
    dosub "<: foo :>" [] = .error "Unrecognised substitution: <: foo :>" ∧
    dosub "a <: x :> b" [("x", "42")] = .ok "a 42 b" := by
  exact ⟨rfl, rfl⟩

/-- C9: a pair count differing from a nonzero layout requirement is a
fatal error naming the puzzle type and the expected count, and a layout
requirement of 0 (any number, but nonempty) with an empty data list is
fatal for pairs and for cards alike. -/
theorem cardinality_mismatch_fatal :
    (∀ (tn : String) (lp : Nat) (ps : List (String × String)),
      lp ≠ 0 → ps.length ≠ lp →
      checkPairs (some lp) (some ps) tn =
        .error ("Puzzle type " ++ tn ++ " needs exactly " ++ toString lp ++ " pairs")) ∧
    (∀ tn : String,
      checkPairs (some 0) (some ([] : List (String × String))) tn =
        .error ("Puzzle type " ++ tn ++ " needs at least one pair")) ∧
    (∀ tn : String,
      checkCards (some 0) (some ([] : List String)) tn =
        .error ("Puzzle type " ++ tn ++ " needs at least one card")) := by
  refine ⟨fun tn lp ps h1 h2 => ?_, fun tn => ?_, fun tn => ?_⟩
  · simp [checkPairs, h1, h2]
  · simp [checkPairs]
  · simp [checkCards]

/-- C9 witness: five pairs against a layout requiring exactly six. -/
theorem cardinality_mismatch_fatal_witness :
    checkPairs (some 6)
      (some [("q1", "a1"), ("q2", "a2"), ("q3", "a3"), ("q4", "a4"), ("q5", "a5")])
      "smallhexagon" =
    .error ("Puzzle type " ++ "smallhexagon" ++ " needs exactly " ++ toString 6 ++ " pairs") :=
  cardinality_mismatch_fatal.1 "smallhexagon" 6
    [("q1", "a1"), ("q2", "a2"), ("q3", "a3"), ("q4", "a4"), ("q5", "a5")]
    (by decide) (by decide)

/-- C10: a data edges list longer than the layout's declared count is
truncated with a warning; a shorter one is padded with blank edges with
a warning; in both cases the adjusted list has exactly the declared
length; an omitted edges list becomes all-blank edges with no warning;
and when the layout declares edges the adjustment never aborts. -/
theorem edges_length_adjusted :
    (∀ (le : Nat) (e : List String) (tn : String), le < e.length →
      checkEdges (some le) (some e) tn = .ok (e.take le, [moreEdgesMsg le]) ∧
      (e.take le).length = le) ∧
    (∀ (le : Nat) (e : List String) (tn : String), e.length < le →
      checkEdges (some le) (some e) tn =
        .ok (e ++ List.replicate (le - e.length) "", [fewerEdgesMsg le]) ∧
      (e ++ List.replicate (le - e.length) "").length = le) ∧
    (∀ (le : Nat) (tn : String),
      checkEdges (some le) none tn = .ok (List.replicate le "", [])) ∧
    (∀ (le : Nat) (e : Option (List String)) (tn : String) (err : String),
      checkEdges (some le) e tn ≠ .error err) := by
  refine ⟨fun le e tn h => ⟨?_, ?_⟩, fun le e tn h => ⟨?_, ?_⟩, fun le tn => ?_, ?_⟩
  · simp [checkEdges, h]
  · simp [List.length_take]; omega
  · simp [checkEdges, h, Nat.not_lt.mpr (Nat.le_of_lt h)]
  · simp [List.length_append, List.length_replicate]; omega
  · simp [checkEdges]
  · intro le e tn err
    cases e with
    | none => simp [checkEdges]
    | some l =>
      simp only [checkEdges]
      split
      · simp
      · split <;> simp

/-- C10 witness: three edges supplied against a declared count of two. -/
theorem edges_length_adjusted_witness :
    checkEdges (some 2) (some ["e1", "e2", "e3"]) "triangles24" =
      .ok (["e1", "e2", "e3"].take 2, [moreEdgesMsg 2]) ∧
    (["e1", "e2", "e3"].take 2).length = 2 :=
  edges_length_adjusted.1 2 ["e1", "e2", "e3"] "triangles24" (by decide)

theorem placeLoop_length (l : List Nat) :
    ∀ (i : Nat) (acc : List (Option Nat)), (placeLoop l i acc).length = acc.length := by
  induction l with
  | nil => intro i acc; rfl
  | cons a rest ih =>
    intro i acc
    rw [placeLoop, ih, List.length_set]

/-- A slot already holding a placed piece still holds one after any
further writes of the placement loop. -/
theorem placeLoop_preserve (l : List Nat) :
    ∀ (i : Nat) (acc : List (Option Nat)) (j x : Nat), acc[j]? = some (some x) →
      ∃ y, (placeLoop l i acc)[j]? = some (some y) := by
  induction l with
  | nil => intro i acc j x h; exact ⟨x, h⟩
  | cons a rest ih =>
    intro i acc j x h
    by_cases haj : a = j
    · subst haj
      have hlen : a < acc.length := by
        by_contra hn
        rw [List.getElem?_eq_none (Nat.le_of_not_lt hn)] at h
        exact Option.noConfusion h
      exact ih (i + 1) _ a i (by rw [List.getElem?_set_self hlen])
    · exact ih (i + 1) _ j x (by rw [List.getElem?_set_ne haj]; exact h)

/-- Every slot listed in the assignment list ends up holding a placed
piece. -/
theorem placeLoop_fills (l : List Nat) :
    ∀ (i : Nat) (acc : List (Option Nat)) (j : Nat), j ∈ l → j < acc.length →
      ∃ y, (placeLoop l i acc)[j]? = some (some y) := by
  induction l with
  | nil => intro i acc j hmem _; exact absurd hmem (List.not_mem_nil j)
  | cons a rest ih =>
    intro i acc j hmem hlt
    by_cases haj : a = j
    · subst haj
      exact placeLoop_preserve rest (i + 1) _ a i (by rw [List.getElem?_set_self hlt])
    · have hmem' : j ∈ rest := by
        cases List.mem_cons.mp hmem with
        | inl h => exact absurd h.symm haj
        | inr h => exact h
      exact ih (i + 1) _ j hmem' (by rw [List.length_set]; exact hlt)

/-- C3: when the slot assignment list is a permutation of
`{0,...,n-1}` (what `random.shuffle(list(range(n)))` produces), it is a
bijection on `{0,...,n-1}` — no duplicates, every slot hit, each slot
assigned exactly once — and after the placement loop every slot holds a
placed piece (no slot retains the initial empty placeholder). -/
theorem slot_assignment_bijection :
    ∀ (n : Nat) (order : List Nat), List.Perm order (List.range n) →
      order.Nodup ∧
      (∀ j, j ∈ order ↔ j < n) ∧
      (∀ j, j < n → order.count j = 1) ∧
      (∀ j, j < n → ∃ i, (placeCards n order)[j]? = some (some i)) := by
  intro n order h
  have hnd : order.Nodup := h.nodup_iff.mpr (List.nodup_range n)
  have hmem : ∀ j, j ∈ order ↔ j < n := fun j => by
    rw [h.mem_iff, List.mem_range]
  refine ⟨hnd, hmem, fun j hj => List.count_eq_one_of_mem hnd ((hmem j).mpr hj),
    fun j hj => ?_⟩
  exact placeLoop_fills order 0 (List.replicate n none) j ((hmem j).mpr hj)
    (by rw [List.length_replicate]; exact hj)

/-- C3 witness: three pieces with a concrete shuffled slot assignment. -/
theorem slot_assignment_bijection_witness :
    ([2, 0, 1] : List Nat).Nodup ∧
    (∀ j, j ∈ ([2, 0, 1] : List Nat) ↔ j < 3) ∧
    (∀ j, j < 3 → ([2, 0, 1] : List Nat).count j = 1) ∧
    (∀ j, j < 3 → ∃ i, (placeCards 3 [2, 0, 1])[j]? = some (some i)) :=
  slot_assignment_bijection 3 [2, 0, 1] (by decide)

/-- Reading a list of length n back element by element over
`List.range n` reproduces the list. -/
theorem map_getD_range (l : List Nat) :
    (List.range l.length).map (fun i => l.getD i 0) = l := by
  induction l with
  | nil => rfl
  | cons a t ih =>
    simp only [List.length_cons, List.range_succ_eq_map, List.map_cons, List.map_map,
      List.getD_cons_zero, Function.comp_def, List.getD_cons_succ]
    rw [ih]

/-- The cyclic predecessor map `c ↦ (c + n - 1) % n` permutes
`{0,...,n-1}`. -/
theorem map_pred_mod_range (n : Nat) :
    List.Perm ((List.range n).map (fun c => (c + n - 1) % n)) (List.range n) := by
  cases n with
  | zero => simp
  | succ m =>
    have hmap : (List.range (m + 1)).map (fun c => (c + (m + 1) - 1) % (m + 1)) =
        m :: List.range m := by
      rw [List.range_succ_eq_map, List.map_cons, List.map_map]
      congr 1
      · simp
      · refine (List.map_congr_left fun x hx => ?_).trans (List.map_id _)
        have hx' : x < m := List.mem_range.mp hx
        have h1 : x + 1 + (m + 1) - 1 = (m + 1) + x := by omega
        simp only [Function.comp_def, h1, Nat.add_mod_left, id]
        exact Nat.mod_eq_of_lt (by omega)
    rw [hmap, List.range_succ]
    exact (List.perm_append_singleton m (List.range m)).symm

/-- Python's `(c - 1 + n) % n` on ints agrees with the Nat computation
`(c + n - 1) % n` for `c < n`. -/
theorem int_pred_mod (c n : Nat) (hc : c < n) :
    (((c : Int) - 1 + n) % n).toNat = (c + n - 1) % n := by
  have h1 : ((c : Int) - 1 + n) = ((c + n - 1 : Nat) : Int) := by omega
  rw [h1, ← Int.ofNat_emod, Int.toNat_ofNat]

/-- C4 counterexample: with three pairs and the shuffle outcome
`cardorder = [1, 0, 2]`, the left face at puzzle position 0 is the
answer side of pair `(cardorder[0] - 1 + 3) % 3 = 0` ("a0"), not the
answer side of pair `cardorder[(0 - 1 + 3) % 3] = cardorder[2] = 2`
("a2") as the claim states. -/
theorem domino_left_face_cex :
    (dominoPuzFaces [("q0", "a0"), ("q1", "a1"), ("q2", "a2")] [1, 0, 2] ("", "") 0).1
      = "a0" ∧
    (([("q0", "a0"), ("q1", "a1"), ("q2", "a2")] : List (String × String)).getD
      (([1, 0, 2] : List Nat).getD ((0 + 3 - 1) % 3) 0) ("", "")).2 = "a2" ∧
    ("a0" : String) ≠ "a2" := by
  decide

/-- C4 (amended): for loop=true with n real pairs and the shuffled
`cardorder`, the right face at position i is the question side of pair
`cardorder[i]` and the left face is the answer side of pair
`(cardorder[i] - 1 + n) % n`; walking all n positions uses each pair's
question side exactly once and each pair's answer side exactly once
(the used index lists are permutations of `{0,...,n-1}`). -/
theorem domino_faces_spec :
    ∀ (pairs : List (String × String)) (cardorder : List Nat),
      List.Perm cardorder (List.range pairs.length) →
      (∀ i, (dominoPuzFaces pairs cardorder ("", "") i).2 =
        (pairs.getD (cardorder.getD i 0) ("", "")).1) ∧
      (∀ i, i < pairs.length →
        (dominoPuzFaces pairs cardorder ("", "") i).1 =
          (pairs.getD ((cardorder.getD i 0 + pairs.length - 1) % pairs.length)
            ("", "")).2) ∧
      List.Perm ((List.range pairs.length).map (fun i => cardorder.getD i 0))
        (List.range pairs.length) ∧
      List.Perm ((List.range pairs.length).map
        (fun i => (cardorder.getD i 0 + pairs.length - 1) % pairs.length))
        (List.range pairs.length) := by
  intro pairs cardorder h
  have hlen : cardorder.length = pairs.length := by
    rw [h.length_eq, List.length_range]
  have hget : ∀ i, i < pairs.length → cardorder.getD i 0 < pairs.length := by
    intro i hi
    have hmem : cardorder.getD i 0 ∈ cardorder := by
      rw [List.getD_eq_getElem?_getD, List.getElem?_eq_getElem (by omega)]
      exact List.getElem_mem _
    exact List.mem_range.mp (h.mem_iff.mp hmem)
  have hmapget : (List.range pairs.length).map (fun i => cardorder.getD i 0) = cardorder := by
    rw [← hlen]
    exact map_getD_range cardorder
  refine ⟨fun i => rfl, fun i hi => ?_, ?_, ?_⟩
  · show (pairs.getD ((((cardorder.getD i 0 : Int) - 1 + pairs.length) %
      pairs.length)).toNat ("", "")).2 = _
    rw [int_pred_mod _ _ (hget i hi)]
  · rw [hmapget]; exact h
  · have hcomp : (List.range pairs.length).map
        (fun i => (cardorder.getD i 0 + pairs.length - 1) % pairs.length) =
        cardorder.map (fun c => (c + pairs.length - 1) % pairs.length) := by
      conv_rhs => rw [← hmapget]
      rw [List.map_map]
      rfl
    rw [hcomp]
    exact (h.map _).trans (map_pred_mod_range pairs.length)

/-- C4 witness: the amended left-face equation at a concrete input. -/
theorem domino_faces_spec_witness :
    (dominoPuzFaces [("q0", "a0"), ("q1", "a1"), ("q2", "a2")] [1, 0, 2] ("", "") 0).1 =
      (([("q0", "a0"), ("q1", "a1"), ("q2", "a2")] : List (String × String)).getD
        ((([1, 0, 2] : List Nat).getD 0 0 + 3 - 1) % 3) ("", "")).2 :=
  (domino_faces_spec [("q0", "a0"), ("q1", "a1"), ("q2", "a2")] [1, 0, 2]
    (by decide)).2.1 0 (by decide)

/-- C5: two runs of the generation core on identical inputs (same data,
same layout, same deterministic PRNG implementation) produce identical
outputs: the embedded pipeline is a pure function of its inputs whose
only random source is the PRNG state, seeded from the title before any
draw. -/
theorem generation_deterministic :
    (∀ (σ : Type) (g : RngOps σ) (d d' : JigsawData) (l l' : JigsawLayout),
      d = d' → l = l' →
      generate_jigsaw_core g d l = generate_jigsaw_core g d' l') ∧
    (∀ (σ : Type) (g : RngOps σ) (d d' : CardsortData) (l l' : CardsortLayout),
      d = d' → l = l' →
      generate_cardsort_core g d l = generate_cardsort_core g d' l') :=
  ⟨fun _ _ _ _ _ _ hd hl => by rw [hd, hl],
   fun _ _ _ _ _ _ hd hl => by rw [hd, hl]⟩

/-- C5 witness: two runs on a concrete input coincide. -/
theorem generation_deterministic_witness :
    generate_jigsaw_core demoRng demoJigsawData demoJigsawLayout =
      generate_jigsaw_core demoRng demoJigsawData demoJigsawLayout ∧
    generate_cardsort_core demoRng demoCardsortData demoCardsortLayout =
      generate_cardsort_core demoRng demoCardsortData demoCardsortLayout :=
  ⟨generation_deterministic.1 Nat demoRng demoJigsawData demoJigsawData
    demoJigsawLayout demoJigsawLayout rfl rfl,
   generation_deterministic.2 Nat demoRng demoCardsortData demoCardsortData
    demoCardsortLayout demoCardsortLayout rfl rfl⟩

/-- C7 counterexample: a dict entry with hidden=true and no solutiontext
key, but with a puzzletext key: puzzle-mode rendering returns the
rendered puzzletext "p", which is neither empty nor the suppressed
blank placeholder. -/
theorem hidden_entry_puzzletext_cex :
    make_entry (.dict ⟨some "t", some "p", none, none, none, none, some true, none, none⟩)
      4 .table "" 0 "(BLANK)" false false = (("p", ""), true, []) ∧
    ("p" : String) ≠ "" ∧ ("p" : String) ≠ "(BLANK)" :=
  ⟨rfl, by decide, by decide⟩

/-- C7 (amended): for a dict entry with a text key, hidden=true, no
puzzletext and no solutiontext key: puzzle-mode rendering suppresses
the text (empty for the table style, an empty regular cell for tikz,
the blank placeholder for md) with an empty label, solution-mode
rendering yields the original text marked as hidden ("(*)"-prefixed for
table and md, the hidden-cell form for tikz), and the exists_hidden
flag is true after either call. -/
theorem hidden_entry_rendering :
    ∀ (e : EntryDict) (t : String) (dsize : Nat) (style : Style)
      (dlabel : String) (dlsize : Nat) (blank : String) (flag : Bool),
      e.text = some t → e.puzzletext = none → e.solutiontext = none →
      e.hidden = some true →
      (make_entry (.dict e) dsize style dlabel dlsize blank false flag).1.1 =
        (match style with
         | .table => ""
         | .tikz => "\x7bregular\x7d\x7b \x7d"
         | .md => blank) ∧
      (make_entry (.dict e) dsize style dlabel dlsize blank false flag).1.2 = "" ∧
      (make_entry (.dict e) dsize style dlabel dlsize blank false flag).2.1 = true ∧
      (make_entry (.dict e) dsize style dlabel dlsize blank true flag).1.1 =
        (match style with
         | .table => "(*) " ++ img2tex (rstrip t)
         | .tikz => "\x7bhidden\x7d\x7b" ++
             sizes.getD (make_entry_size e.size dsize none) "" ++ " " ++
             img2tex (rstrip t) ++ "\x7d"
         | .md => "(*) " ++ rstrip t) ∧
      (make_entry (.dict e) dsize style dlabel dlsize blank true flag).2.1 = true := by
  intro e t dsize style dlabel dlsize blank flag ht hp hs hh
  obtain ⟨et, ep, es, esz, epsz, essz, ehid, elb, elsz⟩ := e
  simp only at ht hp hs hh
  subst ht; subst hp; subst hs; subst hh
  have hr : rstrip "" = "" := rfl
  have hi : img2tex "" = "" := rfl
  cases style <;> simp [make_entry, make_entry_util, hr, hi]

/-- C7 witness: the amended behaviour at a concrete hidden entry in
table style. -/
theorem hidden_entry_rendering_witness :
    (make_entry (.dict ⟨some "x", none, none, none, none, none, some true, none, none⟩)
      4 .table "" 0 "(BLANK)" false false).1.1 = "" ∧
    (make_entry (.dict ⟨some "x", none, none, none, none, none, some true, none, none⟩)
      4 .table "" 0 "(BLANK)" false false).1.2 = "" ∧
    (make_entry (.dict ⟨some "x", none, none, none, none, none, some true, none, none⟩)
      4 .table "" 0 "(BLANK)" false false).2.1 = true ∧
    (make_entry (.dict ⟨some "x", none, none, none, none, none, some true, none, none⟩)
      4 .table "" 0 "(BLANK)" true false).1.1 = "(*) " ++ img2tex (rstrip "x") ∧
    (make_entry (.dict ⟨some "x", none, none, none, none, none, some true, none, none⟩)
      4 .table "" 0 "(BLANK)" true false).2.1 = true :=
  hidden_entry_rendering ⟨some "x", none, none, none, none, none, some true, none, none⟩
    "x" 4 .table "" 0 "(BLANK)" false rfl rfl rfl rfl

/-- C8 counterexample: an entry supplying a text key and a puzzletext
key (so exactly one of puzzletext/solutiontext) is not treated as a
configuration error: puzzle-mode rendering returns the rendered
puzzletext with no diagnostic logged, rather than an empty-text
result. -/
theorem one_sided_override_rendered_cex :
    make_entry (.dict ⟨some "t", some "p", none, none, none, none, none, none, none⟩)
      4 .table "" 0 "(BLANK)" false false = (("p", ""), false, []) ∧
    ("p" : String) ≠ "" :=
  ⟨rfl, by decide⟩

/-- C8 (amended): only an entry with no text key that supplies exactly
one of puzzletext and solutiontext is treated as a configuration error:
make_entry logs the "Cannot have only one..." diagnostic and returns
the empty-text rendering (in either mode), leaving the exists_hidden
flag untouched.  When a text key is present the entry is rendered
normally instead. -/
theorem one_sided_text_config_error :
    ∀ (e : EntryDict) (dsize : Nat) (style : Style) (dlabel : String)
      (dlsize : Nat) (blank : String) (sol flag : Bool),
      e.text = none →
      (e.puzzletext.isSome ∧ e.solutiontext = none) ∨
        (e.puzzletext = none ∧ e.solutiontext.isSome) →
      make_entry (.dict e) dsize style dlabel dlsize blank sol flag =
        ((make_entry_util "" "" false style blank,
          make_entry_label (.dict e) style dlabel dlsize), flag, [onlyOneTextMsg]) := by
  intro e dsize style dlabel dlsize blank sol flag ht hone
  obtain ⟨et, ep, es, esz, epsz, essz, ehid, elb, elsz⟩ := e
  simp only at ht
  subst ht
  rcases hone with ⟨hp, hs⟩ | ⟨hp, hs⟩
  · simp only at hs
    subst hs
    obtain ⟨pt, hpt⟩ := Option.isSome_iff_exists.mp hp
    subst hpt
    simp [make_entry]
  · simp only at hp
    subst hp
    obtain ⟨st, hst⟩ := Option.isSome_iff_exists.mp hs
    subst hst
    simp [make_entry]

/-- C8 witness: the amended error behaviour at a concrete entry with
only a puzzletext key. -/
theorem one_sided_text_config_error_witness :
    make_entry (.dict ⟨none, some "p", none, none, none, none, none, none, none⟩)
      4 .table "" 0 "(BLANK)" false false =
      ((make_entry_util "" "" false .table "(BLANK)",
        make_entry_label
          (.dict ⟨none, some "p", none, none, none, none, none, none, none⟩)
          .table "" 0), false, [onlyOneTextMsg]) :=
  one_sided_text_config_error ⟨none, some "p", none, none, none, none, none, none, none⟩
    4 .table "" 0 "(BLANK)" false false rfl (Or.inl ⟨rfl, rfl⟩)

end JigsawGen
